import Mathlib

/-!
Verification of the agricagent-api inbound-message pipeline.

Shallow embedding of the Python source (src/app/routes/webhook.py,
src/app/agent.py, src/app/db.py, src/test_webhook.py,
src/venv/test_whatsapp_webhook.py) as executable Lean definitions.

Bytes are modelled as `List Nat` (each entry a byte value). Python string
operations are modelled on `List Char` / `String`:
  - `str.strip()` is `pyStrip` (drop whitespace at both ends);
  - `str.lstrip('+')` is `pyLstripPlus`;
  - `str.startswith(p)` is `startswith` (prefix test on the char lists);
  - falsy-`or` on optional strings is `pyOrS`.
The external AI provider, the PIL image codec and `mimetypes.guess_type`
are parameters of the embedding: the pipeline code treats them as opaque.
-/

/-- A byte buffer: each element is one byte value. -/
abbrev ByteBuf := List Nat

/-- Python `s.startswith(p)`: `p.toList` is a list prefix of `s.toList`. -/
def startswith (s p : String) : Bool := p.toList.isPrefixOf s.toList

/-- Python `s.endswith(p)`. -/
def endswith (s p : String) : Bool := p.toList.isSuffixOf s.toList

/-- Python `str.lower()` (character-wise, as on ASCII text). -/
def pyLower (s : String) : String := String.mk (s.toList.map Char.toLower)

/-- Python `needle in hay` on char lists: `needle` is a prefix of some
suffix of the haystack. -/
def containsSubL (needle : List Char) : List Char → Bool
  | [] => needle.isEmpty
  | a :: t => needle.isPrefixOf (a :: t) || containsSubL needle t

/-- Python `needle in hay`: substring containment. -/
def containsSub (hay needle : String) : Bool := containsSubL needle.toList hay.toList

/-- Drop whitespace at both ends of a char list (Python `str.strip()`). -/
def pyStripL (l : List Char) : List Char :=
  ((l.dropWhile Char.isWhitespace).reverse.dropWhile Char.isWhitespace).reverse

/-- Python `str.strip()` on strings. -/
def pyStrip (s : String) : String := String.mk (pyStripL s.toList)

/-- Python `str.lstrip('+')`. -/
def pyLstripPlus (s : String) : String :=
  String.mk (s.toList.dropWhile (fun c => c = '+'))

/-- Python `a or b` where `a` is an optional string and `b` a string:
`None` and the empty string are falsy. -/
def pyOrS (a : Option String) (b : String) : String :=
  match a with
  | some s => if s = "" then b else s
  | none => b

/-- Python `a or b` on two strings. -/
def pyOrSS (a b : String) : String := if a = "" then b else a

/- ===================== src/app/agent.py ===================== -/

/-- `format_whatsapp_number` from src/app/agent.py: strip the number, then
ensure it carries the `whatsapp:` scheme, adding a single leading `+` when
it has neither the scheme nor a `+`. -/
def format_whatsapp_number (number : String) : String :=
  let n := pyStrip number
  if startswith n "whatsapp:" then n
  else
    let n2 := if startswith n "+" then n else "+" ++ pyLstripPlus n
    "whatsapp:" ++ n2

/- ============== src/test_webhook.py (category inference) ============== -/

/-- `get_category_from_filename` from src/test_webhook.py: first matching
keyword among crop, soil, animal, insect (case-insensitive substring),
default `"unknown"`. -/
def get_category_from_filename (filename : String) : String :=
  let fname := pyLower filename
  if containsSub fname "crop" then "crop"
  else if containsSub fname "soil" then "soil"
  else if containsSub fname "animal" then "animal"
  else if containsSub fname "insect" then "insect"
  else "unknown"

/-- `detect_type` from src/venv/test_whatsapp_webhook.py: first matching
keyword among soil, crop/plant, animal, insect/bug (case-insensitive
substring), default `"unknown"`. -/
def detect_type (filename : String) : String :=
  let fname := pyLower filename
  if containsSub fname "soil" then "soil"
  else if containsSub fname "crop" || containsSub fname "plant" then "crop"
  else if containsSub fname "animal" then "animal"
  else if containsSub fname "insect" || containsSub fname "bug" then "insect"
  else "unknown"

/- ===================== src/app/routes/webhook.py ===================== -/

/-- Process-wide configuration of the route module: the inference
credential from the environment and whether the provider client object
was constructed (`client` is `None` when its import/constructor failed). -/
structure Config where
  apiKey : Option String
  hasClient : Bool

/-- `_ok_openai`: `bool(client and os.getenv("OPENAI_API_KEY"))`. -/
def ok_openai (cfg : Config) : Bool := cfg.hasClient && cfg.apiKey.isSome

/-- One invocation of the external completion capability, recording which
call shape the route code used and with which arguments. -/
inductive AICall where
  | textOnly (prompt : String)
  | vision (prompt : String) (image_data_url : String)
deriving DecidableEq

/-- The external provider: maps a call to either a returned message
content (`none` models a null content field) or a raised exception text. -/
abbrev Provider := AICall → Except String (Option String)

/-- `_ai_text_only`: fixed disabled notice when the credential/client is
missing; otherwise one text-only provider call, whose exception text is
folded into an `AI error: ...` reply. Also returns the trace of provider
calls made. -/
def ai_text_only (cfg : Config) (provider : Provider) (prompt_text : String) :
    String × List AICall :=
  if !ok_openai cfg then
    ("👋 I received your message. (AI disabled — set OPENAI_API_KEY.)", [])
  else
    let call := AICall.textOnly prompt_text
    match provider call with
    | .ok content => (pyStrip (pyOrS content ""), [call])
    | .error e => ("AI error: " ++ e, [call])

/-- `_ai_vision`: like `ai_text_only` but with the text+image call shape. -/
def ai_vision (cfg : Config) (provider : Provider) (prompt_text image_data_url : String) :
    String × List AICall :=
  if !ok_openai cfg then
    ("👋 I received your image. (AI disabled — set OPENAI_API_KEY.)", [])
  else
    let call := AICall.vision prompt_text image_data_url
    match provider call with
    | .ok content => (pyStrip (pyOrS content ""), [call])
    | .error e => ("AI error: " ++ e, [call])

/-- Decoded-image metadata as exposed by PIL: size and colour mode. -/
structure Img where
  width : Nat
  height : Nat
  mode : String
deriving DecidableEq

/-- The PIL image codec, abstracted: `decode` is `Image.open` (returning
`none` when opening/decoding raises) and `encodeJPEG` is `save(format=JPEG,
quality=...)` on an image. -/
structure Codec where
  decode : ByteBuf → Option Img
  encodeJPEG : Img → Nat → ByteBuf

/-- `_compress_image_bytes`: pass-through when PIL is absent or decoding
fails; otherwise convert non-RGB/L modes to RGB, downscale so the longest
side is at most `max_side`, and JPEG re-encode at `quality`. The Python
float `scale = max_side / longest` followed by `int(...)` truncation is
modelled as exact rational arithmetic with floor, i.e. `w * max_side /
longest` in natural-number division. -/
def compress_image_bytes (hasPIL : Bool) (codec : Codec) (img_bytes : ByteBuf)
    (max_side quality : Nat) : ByteBuf × String :=
  if !hasPIL then (img_bytes, "image/jpeg")
  else
    match codec.decode img_bytes with
    | none => (img_bytes, "image/jpeg")
    | some im0 =>
      let im1 := if im0.mode ≠ "RGB" ∧ im0.mode ≠ "L" then { im0 with mode := "RGB" } else im0
      let longest := max im1.width im1.height
      let im2 :=
        if max_side < longest then
          { im1 with width := im1.width * max_side / longest,
                     height := im1.height * max_side / longest }
        else im1
      (codec.encodeJPEG im2 quality, "image/jpeg")

/-- The base64 alphabet. -/
def b64Chars : List Char :=
  "ABCDEFGHIJKLMNOPQRSTUVWXYZabcdefghijklmnopqrstuvwxyz0123456789+/".toList

/-- Character of a 6-bit group. -/
def b64Char (n : Nat) : Char := b64Chars.getD n 'A'

/-- Standard base64 encoding of a byte buffer (`base64.b64encode`). -/
def b64encode : ByteBuf → String
  | [] => ""
  | [a] => String.mk [b64Char (a / 4), b64Char (a % 4 * 16), '=', '=']
  | [a, b] => String.mk [b64Char (a / 4), b64Char (a % 4 * 16 + b / 16), b64Char (b % 16 * 4), '=']
  | a :: b :: c :: rest =>
    String.mk [b64Char (a / 4), b64Char (a % 4 * 16 + b / 16),
               b64Char (b % 16 * 4 + c / 64), b64Char (c % 64)] ++ b64encode rest

/-- `_b64_data_url`: coerce the content type to lower-case stripped form,
fall back to `image/jpeg` when it is empty or not an `image/*` type, and
build the `data:` URL over the base64 payload. -/
def b64_data_url (image_bytes : ByteBuf) (content_type : String) : String :=
  let ct0 := pyStrip (pyLower (pyOrSS content_type "image/jpeg"))
  let ct := if !startswith ct0 "image/" then "image/jpeg" else ct0
  "data:" ++ ct ++ ";base64," ++ b64encode image_bytes

/-- `_structured_prompt`: the fixed identification instruction text. -/
def structured_prompt (filename : String) (context : Option String) : String :=
  "You are AgriAgent, an expert agronomist for smallholder farmers. " ++
  "Carefully analyze the attached image (crop, leaf/fruit/stem/root, pests, animals, damage patterns). " ++
  "Be specific and avoid generic guesses. If uncertain, state \x27Low confidence\x27 and give the top 1–2 possibilities.\n\n" ++
  "Filename: " ++ pyOrSS filename "(unknown)" ++ "\n" ++
  "Farmer context (may be empty): " ++ pyOrS context "(none)" ++ "\n\n" ++
  "Return the answer in exactly this format (no extra commentary):\n\n" ++
  "Crop/Plant or Animal: <one short name>\n" ++
  "Likely Problem: <one short diagnosis>\n" ++
  "Confidence: <High/Medium/Low>\n" ++
  "Why: <1–2 short sentences describing the visible cues>\n" ++
  "Recommended Action: <2–4 practical steps; safe, affordable>\n" ++
  "Preventive Tips: <2–3 short bullet points>\n"

/-- Body of the `/chat` route's JSON reply. -/
structure ChatOut where
  reply : String
deriving DecidableEq

/-- The `/chat` route: pull `text`/`message` out of the JSON payload
(modelled as a lookup function), strip it, and answer with the text-only
gateway. A plain dict return carries HTTP status 200. -/
def chat (cfg : Config) (provider : Provider) (payload : String → Option String) :
    ChatOut × Nat × List AICall :=
  let text := pyStrip (pyOrS (payload "text") (pyOrS (payload "message") ""))
  let r := ai_text_only cfg provider ("Farmer says: " ++ text)
  (⟨r.1⟩, 200, r.2)

/-- A multipart upload: declared filename, declared content type, bytes. -/
structure Upload where
  filename : Option String
  content_type : Option String
  bytes : ByteBuf

/-- A raised `HTTPException`. -/
structure HTTPError where
  status_code : Nat
  detail : String
deriving DecidableEq

/-- Body of the `/identify` route's JSON reply. -/
structure IdentifyOut where
  filename : Option String
  reply : String
  ok : Bool

/-- `mimetypes.guess_type` restricted to its first component, abstracted. -/
abbrev GuessType := String → Option String

/-- The validation/normalization prefix of the `/identify` route (webhook.py
lines 169-184): pick `file or image`, trust a declared `image/*` content
type or fall back to a guess from the filename, then read the bytes and
reject empty or oversized buffers. On success it yields the upload, its
raw bytes and the resolved content type. -/
def identify_normalize (guessType : GuessType) (file image : Option Upload) :
    Except HTTPError (Upload × ByteBuf × String) :=
  match (match file with | some u => some u | none => image) with
  | none => .error ⟨400, "No image found. Use field \x27file\x27 or \x27image\x27."⟩
  | some upload =>
    let ct0 := pyStrip (pyLower (pyOrS upload.content_type ""))
    let ctOk : Option String :=
      if startswith ct0 "image/" then some ct0
      else
        let guessed := pyOrS (guessType (pyOrS upload.filename "")) ""
        if startswith guessed "image/" then some guessed else none
    match ctOk with
    | none => .error ⟨400, "Invalid image type: " ++ pyOrSS ct0 "unknown"⟩
    | some content_type =>
      let raw_bytes := upload.bytes
      if raw_bytes = [] then .error ⟨400, "Uploaded image was empty."⟩
      else if 20 * 1024 * 1024 < raw_bytes.length then
        .error ⟨413, "Image too large (max ~20MB)."⟩
      else .ok (upload, raw_bytes, content_type)

/-- The `/identify` route: normalize, compress, build the data URL and the
structured prompt, and call the vision gateway. A raised `HTTPException`
is the error side; the trace lists the provider calls made. -/
def identify (cfg : Config) (provider : Provider) (guessType : GuessType)
    (hasPIL : Bool) (codec : Codec) (file image : Option Upload)
    (context : Option String) : Except HTTPError IdentifyOut × List AICall :=
  match identify_normalize guessType file image with
  | .error e => (.error e, [])
  | .ok (upload, raw_bytes, _content_type) =>
    let comp := compress_image_bytes hasPIL codec raw_bytes 1600 82
    let data_url := b64_data_url comp.1 comp.2
    let prompt := structured_prompt (pyOrS upload.filename "image") context
    let r := ai_vision cfg provider prompt data_url
    (.ok ⟨upload.filename, r.1, true⟩, r.2)

/-- One escaped character of Python `html.escape(s, quote=True)`. -/
def escapeChar (c : Char) : List Char :=
  if c = '&' then "&amp;".toList
  else if c = '<' then "&lt;".toList
  else if c = '>' then "&gt;".toList
  else if c = '"' then "&quot;".toList
  else if c = Char.ofNat 39 then "&#x27;".toList
  else [c]

/-- `html.escape(s, quote=True)` on a char list. -/
def escapeList : List Char → List Char
  | [] => []
  | c :: t => escapeChar c ++ escapeList t

/-- `html.escape(s, quote=True)`. -/
def html_escape (s : String) : String := String.mk (escapeList s.toList)

/-- A rendered HTTP response: body, declared media type, status code.
A FastAPI `Response` without an explicit status carries 200. -/
structure HttpResponse where
  content : String
  media_type : String
  status_code : Nat
deriving DecidableEq

/-- `twiml_reply`: wrap the escaped text in the one-message TwiML
envelope, declared as `application/xml`, status 200. -/
def twiml_reply (text : String) : HttpResponse :=
  { content := "<?xml version=\"1.0\" encoding=\"UTF-8\"?><Response><Message>" ++
      html_escape text ++ "</Message></Response>"
    media_type := "application/xml"
    status_code := 200 }

/-- The carrier form fields of a webhook POST. -/
structure WebhookForm where
  From : String
  Body : String
  NumMedia : String
  MediaUrl0 : Option String
  MediaContentType0 : Option String

/-- The prompt string the webhook route builds: when media is signalled
(`NumMedia` truthy and not "0", or `MediaUrl0` truthy) the media URL is
interpolated as text; otherwise just the body. -/
def webhook_prompt (f : WebhookForm) : String :=
  if (f.NumMedia ≠ "" ∧ f.NumMedia ≠ "0") ∨ pyOrS f.MediaUrl0 "" ≠ "" then
    "Farmer says: " ++ pyOrSS f.Body "(no text)" ++
    "\nThey also sent an image: " ++ pyOrS f.MediaUrl0 "(unavailable)"
  else
    "Farmer says: " ++ pyOrSS f.Body "(no text)"

/-- `whatsapp_webhook`: build the prompt, answer with the text-only
gateway, and render the reply as TwiML. -/
def whatsapp_webhook (cfg : Config) (provider : Provider) (f : WebhookForm) :
    HttpResponse × List AICall :=
  let r := ai_text_only cfg provider (webhook_prompt f)
  (twiml_reply r.1, r.2)

/- ===================== src/app/db.py ===================== -/

/-- A persisted row of the `messages` table. -/
structure MessageRec where
  id : Nat
  user_id : Nat
  role : String
  text : String
deriving DecidableEq

/-- The `ORDER BY messages.id DESC` relation. -/
def msgDesc (a b : MessageRec) : Prop := b.id ≤ a.id

instance : DecidableRel msgDesc := fun _ _ => Nat.decLe _ _

/-- The dict a row is rendered to: `{"id", "user_id", "role", "text"}`. -/
def msgDict (m : MessageRec) : Nat × Nat × String × String :=
  (m.id, m.user_id, m.role, m.text)

/-- `get_all_messages`: `SELECT ... ORDER BY id DESC LIMIT limit` over the
store (modelled as a list of rows, the query as sort-descending + take),
rendered to dicts. The store is returned unchanged: the function only
reads. -/
def get_all_messages (store : List MessageRec) (limit : Nat) :
    List (Nat × Nat × String × String) × List MessageRec :=
  (((List.insertionSort msgDesc store).take limit).map msgDict, store)

/- ===================== concrete instances for witnesses ===================== -/

/-- Modelled from the spec: a small extension table standing in for the
Python stdlib `mimetypes.guess_type`, used to instantiate the abstract
`GuessType` parameter at concrete inputs. -/
def guess_type_demo (filename : String) : Option String :=
  let f := pyLower filename
  if endswith f ".jpg" ∨ endswith f ".jpeg" then some "image/jpeg"
  else if endswith f ".png" then some "image/png"
  else if endswith f ".txt" then some "text/plain"
  else none

/-- A concrete codec instantiating the abstract `Codec`: a buffer
`1 :: w :: h :: _` decodes to a `w × h` RGB image and encoding stores the
dimensions back in that header form. -/
def demoCodec : Codec where
  decode := fun b => match b with
    | 1 :: w :: h :: _ => some ⟨w, h, "RGB"⟩
    | _ => none
  encodeJPEG := fun im _q => [1, im.width, im.height]

/-- A codec is round-tripping when decoding a JPEG it produced recovers
the encoded dimensions (as an RGB image) — what a real JPEG codec does. -/
def roundTripCodec (codec : Codec) : Prop :=
  ∀ im q, codec.decode (codec.encodeJPEG im q) = some ⟨im.width, im.height, "RGB"⟩

/-- A provider that always answers with a fixed text. -/
def providerOk (t : String) : Provider := fun _ => .ok (some t)

/-- A provider that always raises. -/
def providerErr (e : String) : Provider := fun _ => .error e

instance : IsTotal MessageRec msgDesc := ⟨fun a b => le_total b.id a.id⟩

instance : IsTrans MessageRec msgDesc := ⟨fun _ _ _ hab hbc => le_trans hbc hab⟩

/- ===================== string lemmas ===================== -/

theorem toList_append (s t : String) : (s ++ t).toList = s.toList ++ t.toList :=
  String.data_append s t

theorem startswith_append (p s : String) : startswith (p ++ s) p = true := by
  unfold startswith
  rw [List.isPrefixOf_iff_prefix, toList_append]
  exact List.prefix_append _ _

theorem head_dropWhile_false {α : Type} (p : α → Bool) :
    ∀ {l : List α} {a : α}, (l.dropWhile p).head? = some a → p a = false := by
  intro l
  induction l with
  | nil => intro a h; simp [List.dropWhile] at h
  | cons b t ih =>
    intro a h
    rw [List.dropWhile_cons] at h
    by_cases hb : p b = true
    · rw [if_pos hb] at h; exact ih h
    · rw [if_neg hb] at h
      simp only [List.head?_cons, Option.some.injEq] at h
      subst h
      simpa using hb

theorem dropWhile_eq_self_of_head {α : Type} (p : α → Bool) (l : List α)
    (h : ∀ a, l.head? = some a → p a = false) : l.dropWhile p = l := by
  cases l with
  | nil => rfl
  | cons b t => rw [List.dropWhile_cons, h b rfl]; simp

theorem getLast?_dropWhile {α : Type} (p : α → Bool) (l : List α) {a : α}
    (h : (l.dropWhile p).getLast? = some a) : l.getLast? = some a := by
  obtain ⟨t, ht⟩ := List.dropWhile_suffix (l := l) p
  rw [← ht, List.getLast?_append, h]
  rfl

theorem getLast?_pyStripL_false {l : List Char} {a : Char}
    (h : (pyStripL l).getLast? = some a) : a.isWhitespace = false := by
  unfold pyStripL at h
  rw [List.getLast?_reverse] at h
  exact head_dropWhile_false _ h

theorem head?_pyStripL_false {l : List Char} {a : Char}
    (h : (pyStripL l).head? = some a) : a.isWhitespace = false := by
  unfold pyStripL at h
  rw [List.head?_reverse] at h
  have h2 := getLast?_dropWhile _ _ h
  rw [List.getLast?_reverse] at h2
  exact head_dropWhile_false _ h2

theorem pyStripL_eq_self {l : List Char}
    (h1 : ∀ a, l.head? = some a → a.isWhitespace = false)
    (h2 : ∀ a, l.getLast? = some a → a.isWhitespace = false) :
    pyStripL l = l := by
  unfold pyStripL
  rw [dropWhile_eq_self_of_head _ _ h1, dropWhile_eq_self_of_head _ _ ?_, List.reverse_reverse]
  intro a ha
  rw [List.head?_reverse] at ha
  exact h2 a ha

theorem pyStrip_eq_self (s : String)
    (h1 : ∀ a, s.toList.head? = some a → a.isWhitespace = false)
    (h2 : ∀ a, s.toList.getLast? = some a → a.isWhitespace = false) :
    pyStrip s = s := by
  apply String.ext
  show pyStripL s.toList = s.toList
  exact pyStripL_eq_self h1 h2

theorem pyStrip_idem (s : String) : pyStrip (pyStrip s) = pyStrip s := by
  apply pyStrip_eq_self
  · intro a ha; exact head?_pyStripL_false ha
  · intro a ha; exact getLast?_pyStripL_false ha

theorem pyStrip_whatsapp (n2 : String)
    (h2 : ∀ a, n2.toList.getLast? = some a → a.isWhitespace = false) :
    pyStrip ("whatsapp:" ++ n2) = "whatsapp:" ++ n2 := by
  apply pyStrip_eq_self
  · intro a ha
    rw [toList_append, List.head?_append] at ha
    have hw : "whatsapp:".toList.head? = some 'w' := by decide
    rw [hw] at ha
    have hor : (some 'w').or n2.toList.head? = some 'w' := rfl
    rw [hor] at ha
    injection ha with ha
    subst ha
    decide
  · intro a ha
    rw [toList_append, List.getLast?_append] at ha
    cases hn : n2.toList.getLast? with
    | some b =>
      rw [hn] at ha
      have hor : (some b).or "whatsapp:".toList.getLast? = some b := rfl
      rw [hor] at ha
      injection ha with ha
      subst ha
      exact h2 _ hn
    | none =>
      rw [hn] at ha
      have hcolon : "whatsapp:".toList.getLast? = some ':' := by decide
      rw [hcolon] at ha
      have hor : Option.or none (some ':') = some ':' := rfl
      rw [hor] at ha
      injection ha with ha
      subst ha
      decide

theorem getLast?_format_tail_false (s : String) {a : Char}
    (ha : (if startswith (pyStrip s) "+" then pyStrip s
           else "+" ++ pyLstripPlus (pyStrip s)).toList.getLast? = some a) :
    a.isWhitespace = false := by
  by_cases hp : startswith (pyStrip s) "+" = true
  · rw [if_pos hp] at ha
    exact getLast?_pyStripL_false ha
  · rw [if_neg hp, toList_append, List.getLast?_append] at ha
    cases hn : (pyLstripPlus (pyStrip s)).toList.getLast? with
    | some b =>
      rw [hn] at ha
      have hor : (some b).or "+".toList.getLast? = some b := rfl
      rw [hor] at ha
      injection ha with ha
      subst ha
      have hb : (pyStrip s).toList.getLast? = some b := getLast?_dropWhile _ _ hn
      exact getLast?_pyStripL_false hb
    | none =>
      rw [hn] at ha
      have hplus : "+".toList.getLast? = some '+' := by decide
      rw [hplus] at ha
      have hor : Option.or none (some '+') = some '+' := rfl
      rw [hor] at ha
      injection ha with ha
      subst ha
      decide

/-- C10: `format_whatsapp_number` is idempotent and its result always
carries the `whatsapp:` prefix. -/
theorem format_whatsapp_number_idem_and_scheme (s : String) :
    format_whatsapp_number (format_whatsapp_number s) = format_whatsapp_number s ∧
    startswith (format_whatsapp_number s) "whatsapp:" = true := by
  unfold format_whatsapp_number
  by_cases hw : startswith (pyStrip s) "whatsapp:" = true
  · simp only [hw, if_true, pyStrip_idem]
    exact ⟨trivial, trivial⟩
  · simp only [hw, if_false, Bool.false_eq_true]
    rw [pyStrip_whatsapp _ (fun a ha => getLast?_format_tail_false s ha)]
    constructor
    · rw [if_pos (startswith_append "whatsapp:" _)]
    · exact startswith_append "whatsapp:" _

/- ===================== C8: category inference ===================== -/

/-- C8 counterexample: a message containing "pest" (or "livestock") and no
actual vocabulary keyword is classified `"unknown"` by both category
functions — not `insect` (resp. `animal`) as the claim states. -/
theorem category_pest_counterexample :
    get_category_from_filename "pest" = "unknown" ∧
    detect_type "pest" = "unknown" ∧
    get_category_from_filename "pest" ≠ "insect" ∧
    detect_type "livestock" = "unknown" ∧
    detect_type "livestock" ≠ "animal" := by
  refine ⟨by decide, by decide, by decide, by decide, by decide⟩

/-- C8 amended: category inference is a case-insensitive substring match in
a fixed priority order where the first matching keyword wins; the
vocabularies are crop, soil, animal, insect (test_webhook.py) and soil,
crop/plant, animal, insect/bug (test_whatsapp_webhook.py), with default
`"unknown"`; "pest" and "livestock" are not keywords. -/
theorem category_inference_amended (s : String) :
    (containsSub (pyLower s) "soil" = true → detect_type s = "soil") ∧
    (containsSub (pyLower s) "soil" = true → containsSub (pyLower s) "crop" = false →
      get_category_from_filename s = "soil") ∧
    (containsSub (pyLower s) "insect" = true → containsSub (pyLower s) "crop" = false →
      containsSub (pyLower s) "soil" = false → containsSub (pyLower s) "animal" = false →
      get_category_from_filename s = "insect") ∧
    (containsSub (pyLower s) "insect" = true → containsSub (pyLower s) "soil" = false →
      containsSub (pyLower s) "crop" = false → containsSub (pyLower s) "plant" = false →
      containsSub (pyLower s) "animal" = false → detect_type s = "insect") ∧
    (containsSub (pyLower s) "animal" = true → containsSub (pyLower s) "crop" = false →
      containsSub (pyLower s) "soil" = false → get_category_from_filename s = "animal") ∧
    (containsSub (pyLower s) "animal" = true → containsSub (pyLower s) "soil" = false →
      containsSub (pyLower s) "crop" = false → containsSub (pyLower s) "plant" = false →
      detect_type s = "animal") ∧
    (containsSub (pyLower s) "crop" = false → containsSub (pyLower s) "soil" = false →
      containsSub (pyLower s) "animal" = false → containsSub (pyLower s) "insect" = false →
      get_category_from_filename s = "unknown") ∧
    (containsSub (pyLower s) "soil" = false → containsSub (pyLower s) "crop" = false →
      containsSub (pyLower s) "plant" = false → containsSub (pyLower s) "animal" = false →
      containsSub (pyLower s) "insect" = false → containsSub (pyLower s) "bug" = false →
      detect_type s = "unknown") ∧
    (containsSub (pyLower s) "crop" = true → get_category_from_filename s = "crop") ∧
    (containsSub (pyLower s) "crop" = true → containsSub (pyLower s) "soil" = false →
      detect_type s = "crop") ∧
    (containsSub (pyLower s) "plant" = true → containsSub (pyLower s) "soil" = false →
      detect_type s = "crop") ∧
    (containsSub (pyLower s) "bug" = true → containsSub (pyLower s) "soil" = false →
      containsSub (pyLower s) "crop" = false → containsSub (pyLower s) "plant" = false →
      containsSub (pyLower s) "animal" = false → detect_type s = "insect") := by
  refine ⟨?_, ?_, ?_, ?_, ?_, ?_, ?_, ?_, ?_, ?_, ?_, ?_⟩ <;>
    · intros
      simp [get_category_from_filename, detect_type, *]

/-- C8 amended witness: the amended theorem applied at concrete messages,
covering the soil, insect, crop and bug cases. -/
theorem category_inference_amended_witness :
    detect_type "Check my SOIL please" = "soil" ∧
    get_category_from_filename "tiny insect bite" = "insect" ∧
    get_category_from_filename "my CROP field" = "crop" ∧
    detect_type "green plants" = "crop" ∧
    detect_type "a ladybug" = "insect" := by
  refine ⟨?_, ?_, ?_, ?_, ?_⟩
  · exact (category_inference_amended "Check my SOIL please").1 (by decide)
  · exact (category_inference_amended "tiny insect bite").2.2.1
      (by decide) (by decide) (by decide) (by decide)
  · exact (category_inference_amended "my CROP field").2.2.2.2.2.2.2.2.1 (by decide)
  · exact (category_inference_amended "green plants").2.2.2.2.2.2.2.2.2.2.1
      (by decide) (by decide)
  · exact (category_inference_amended "a ladybug").2.2.2.2.2.2.2.2.2.2.2
      (by decide) (by decide) (by decide) (by decide) (by decide)

/- ===================== C2: webhook reply rendering ===================== -/

theorem escapeChar_no_angle (a c : Char) (h : c ∈ escapeChar a) :
    c ≠ '<' ∧ c ≠ '>' := by
  have aux : ∀ (L : List Char), ¬('<' ∈ L) → ¬('>' ∈ L) → c ∈ L → c ≠ '<' ∧ c ≠ '>' :=
    fun L h1 h2 hm => ⟨fun e => h1 (e ▸ hm), fun e => h2 (e ▸ hm)⟩
  unfold escapeChar at h
  split_ifs at h with h1 h2 h3 h4 h5
  · exact aux _ (by decide) (by decide) h
  · exact aux _ (by decide) (by decide) h
  · exact aux _ (by decide) (by decide) h
  · exact aux _ (by decide) (by decide) h
  · exact aux _ (by decide) (by decide) h
  · simp only [List.mem_singleton] at h
    subst h
    exact ⟨h2, h3⟩

theorem escapeList_no_angle (l : List Char) (c : Char) (h : c ∈ escapeList l) :
    c ≠ '<' ∧ c ≠ '>' := by
  induction l with
  | nil => simp [escapeList] at h
  | cons a t ih =>
    rw [escapeList, List.mem_append] at h
    cases h with
    | inl h => exact escapeChar_no_angle a c h
    | inr h => exact ih h

theorem count_html_escape_lt (s : String) : (html_escape s).toList.count '<' = 0 :=
  List.count_eq_zero.mpr (fun h => (escapeList_no_angle s.toList _ h).1 rfl)

theorem count_html_escape_gt (s : String) : (html_escape s).toList.count '>' = 0 :=
  List.count_eq_zero.mpr (fun h => (escapeList_no_angle s.toList _ h).2 rfl)

/-- C2: for every webhook form POST the response has status 200, the
carrier XML media type, and a body that is the TwiML envelope around the
escaped reply; the escaped reply contains no raw angle bracket, so the
body has exactly one `<Message>` element (its five `<`/`>` characters are
exactly the envelope's tags). -/
theorem webhook_always_200_one_escaped_message (cfg : Config) (provider : Provider)
    (f : WebhookForm) :
    (whatsapp_webhook cfg provider f).1.status_code = 200 ∧
    (whatsapp_webhook cfg provider f).1.media_type = "application/xml" ∧
    (whatsapp_webhook cfg provider f).1.content =
      "<?xml version=\"1.0\" encoding=\"UTF-8\"?><Response><Message>" ++
        html_escape (ai_text_only cfg provider (webhook_prompt f)).1 ++
        "</Message></Response>" ∧
    (whatsapp_webhook cfg provider f).1.content.toList.count '<' = 5 ∧
    (whatsapp_webhook cfg provider f).1.content.toList.count '>' = 5 ∧
    (∀ c, c ∈ (html_escape (ai_text_only cfg provider (webhook_prompt f)).1).toList →
      c ≠ '<' ∧ c ≠ '>') := by
  have hc : (whatsapp_webhook cfg provider f).1.content =
      "<?xml version=\"1.0\" encoding=\"UTF-8\"?><Response><Message>" ++
        html_escape (ai_text_only cfg provider (webhook_prompt f)).1 ++
        "</Message></Response>" := rfl
  refine ⟨rfl, rfl, hc, ?_, ?_, ?_⟩
  · rw [hc, toList_append, toList_append, List.count_append, List.count_append,
      count_html_escape_lt]
    decide
  · rw [hc, toList_append, toList_append, List.count_append, List.count_append,
      count_html_escape_gt]
    decide
  · intro c h
    exact escapeList_no_angle _ c h

/- ===================== C4: gateway failure handling ===================== -/

/-- C4: the inference gateway never propagates a provider exception — on a
provider error it returns a reply embedding the error cause — and when the
credential is absent it returns the fixed disabled notice with no provider
call; consequently `/chat` then returns status 200 with the fixed notice
and an empty call trace, for every payload. -/
theorem gateway_no_raise_chat_disabled (cfg : Config) (provider : Provider)
    (prompt : String) (payload : String → Option String) :
    (cfg.apiKey = none →
      ai_text_only cfg provider prompt =
        ("👋 I received your message. (AI disabled — set OPENAI_API_KEY.)", []) ∧
      (chat cfg provider payload).1.reply =
        "👋 I received your message. (AI disabled — set OPENAI_API_KEY.)" ∧
      (chat cfg provider payload).2.2 = []) ∧
    (∀ e, ok_openai cfg = true → provider (AICall.textOnly prompt) = .error e →
      (ai_text_only cfg provider prompt).1 = "AI error: " ++ e) ∧
    (chat cfg provider payload).2.1 = 200 := by
  refine ⟨?_, ?_, rfl⟩
  · intro hk
    have hok : ok_openai cfg = false := by simp [ok_openai, hk]
    refine ⟨?_, ?_, ?_⟩ <;> simp [ai_text_only, chat, hok]
  · intro e hok he
    simp [ai_text_only, hok, he]

/-- C4 witness: the theorem applied at a concrete keyless configuration and
at a concrete raising provider. -/
theorem gateway_no_raise_chat_disabled_witness :
    (chat ⟨none, true⟩ (providerErr "boom") (fun _ => none)).1.reply =
      "👋 I received your message. (AI disabled — set OPENAI_API_KEY.)" ∧
    (ai_text_only ⟨some "k", true⟩ (providerErr "boom") "hi").1 = "AI error: boom" := by
  constructor
  · exact ((gateway_no_raise_chat_disabled ⟨none, true⟩ (providerErr "boom") "hi"
      (fun _ => none)).1 rfl).2.1
  · exact (gateway_no_raise_chat_disabled ⟨some "k", true⟩ (providerErr "boom") "hi"
      (fun _ => none)).2.1 "boom" (by decide) rfl

/- ===================== C5/C6: image compressor ===================== -/

theorem scaled_le {w L : Nat} (m : Nat) (hw : w ≤ L) (hL : 0 < L) : w * m / L ≤ m := by
  calc w * m / L ≤ L * m / L := Nat.div_le_div_right (Nat.mul_le_mul_right m hw)
  _ = m := Nat.mul_div_cancel_left m hL

theorem compress_eq_encode (codec : Codec) {bytes : ByteBuf} {im : Img}
    (hdec : codec.decode bytes = some im) (ms q : Nat) :
    compress_image_bytes true codec bytes ms q =
      (codec.encodeJPEG
        { width := if ms < max im.width im.height
              then im.width * ms / max im.width im.height else im.width,
          height := if ms < max im.width im.height
              then im.height * ms / max im.width im.height else im.height,
          mode := if im.mode ≠ "RGB" ∧ im.mode ≠ "L" then "RGB" else im.mode } q,
       "image/jpeg") := by
  unfold compress_image_bytes
  rw [hdec]
  simp only [Bool.not_true, Bool.false_eq_true, if_false]
  split_ifs <;> rfl

theorem compress_dims_le (w h : Nat) :
    max (if 1600 < max w h then w * 1600 / max w h else w)
        (if 1600 < max w h then h * 1600 / max w h else h) ≤ 1600 := by
  by_cases hL : 1600 < max w h
  · rw [if_pos hL, if_pos hL]
    have hpos : 0 < max w h := Nat.lt_of_le_of_lt (Nat.zero_le 1600) hL
    exact max_le (scaled_le 1600 (le_max_left w h) hpos)
      (scaled_le 1600 (le_max_right w h) hpos)
  · rw [if_neg hL, if_neg hL]
    exact Nat.le_of_not_lt hL

theorem compress_decode_dims (codec : Codec) (hRT : roundTripCodec codec)
    {bytes : ByteBuf} {im : Img} (hdec : codec.decode bytes = some im) :
    codec.decode (compress_image_bytes true codec bytes 1600 82).1 =
      some { width := if 1600 < max im.width im.height
                then im.width * 1600 / max im.width im.height else im.width,
             height := if 1600 < max im.width im.height
                then im.height * 1600 / max im.width im.height else im.height,
             mode := "RGB" } := by
  rw [compress_eq_encode codec hdec 1600 82]
  exact hRT _ 82

/-- C5: the compressor returns without failing on every input: when PIL is
absent or the bytes do not decode as an image it returns the original
bytes unchanged with the best-guess MIME type `image/jpeg`; when the bytes
decode it returns a JPEG re-encoding at quality factor 82 of an image
whose longer edge is at most 1600. -/
theorem compressor_bounded_or_passthrough (hasPIL : Bool) (codec : Codec)
    (bytes : ByteBuf) :
    ((hasPIL = false ∨ codec.decode bytes = none) →
      compress_image_bytes hasPIL codec bytes 1600 82 = (bytes, "image/jpeg")) ∧
    (∀ im, hasPIL = true → codec.decode bytes = some im →
      ∃ im2, compress_image_bytes hasPIL codec bytes 1600 82 =
          (codec.encodeJPEG im2 82, "image/jpeg") ∧
        max im2.width im2.height ≤ 1600) := by
  constructor
  · rintro (h | h) <;> simp [compress_image_bytes, h]
  · intro im hPIL hdec
    subst hPIL
    refine ⟨_, compress_eq_encode codec hdec 1600 82, ?_⟩
    exact compress_dims_le im.width im.height

/-- C5 witness: the theorem applied at the concrete demo codec, once on a
decodable buffer and once on a non-decodable one. -/
theorem compressor_bounded_or_passthrough_witness :
    compress_image_bytes true demoCodec [9, 9] 1600 82 = ([9, 9], "image/jpeg") ∧
    ∃ im2, compress_image_bytes true demoCodec [1, 3200, 1000] 1600 82 =
        (demoCodec.encodeJPEG im2 82, "image/jpeg") ∧
      max im2.width im2.height ≤ 1600 := by
  constructor
  · exact (compressor_bounded_or_passthrough true demoCodec [9, 9]).1 (Or.inr rfl)
  · exact (compressor_bounded_or_passthrough true demoCodec [1, 3200, 1000]).2
      ⟨3200, 1000, "RGB"⟩ rfl rfl

theorem compress_twice_dims (codec : Codec) (hRT : roundTripCodec codec)
    (im2 : Img) (hle : max im2.width im2.height ≤ 1600) (q : Nat) :
    (codec.decode (compress_image_bytes true codec (codec.encodeJPEG im2 q) 1600 82).1).map
      (fun j => (j.width, j.height)) = some (im2.width, im2.height) := by
  have hd : codec.decode (codec.encodeJPEG im2 q) =
      some ⟨im2.width, im2.height, "RGB"⟩ := hRT im2 q
  rw [compress_decode_dims codec hRT hd]
  dsimp only
  have hn : ¬ 1600 < max im2.width im2.height := Nat.not_lt.mpr hle
  rw [if_neg hn, if_neg hn]
  rfl

/-- C6: compression is idempotent in effect: a decodable image already
within the 1600 bound keeps its dimensions (and no error occurs), and
applying the compressor to its own output yields an image with exactly the
same dimensions as that output. -/
theorem compressor_idempotent (hasPIL : Bool) (codec : Codec)
    (hRT : roundTripCodec codec) (bytes : ByteBuf) :
    (∀ im, hasPIL = true → codec.decode bytes = some im →
      max im.width im.height ≤ 1600 →
      (codec.decode (compress_image_bytes hasPIL codec bytes 1600 82).1).map
        (fun j => (j.width, j.height)) = some (im.width, im.height)) ∧
    (codec.decode (compress_image_bytes hasPIL codec
        (compress_image_bytes hasPIL codec bytes 1600 82).1 1600 82).1).map
      (fun j => (j.width, j.height)) =
    (codec.decode (compress_image_bytes hasPIL codec bytes 1600 82).1).map
      (fun j => (j.width, j.height)) := by
  constructor
  · intro im hPIL hdec hle
    subst hPIL
    rw [compress_decode_dims codec hRT hdec]
    have hn : ¬ 1600 < max im.width im.height := Nat.not_lt.mpr hle
    rw [if_neg hn, if_neg hn]
    rfl
  · cases hasPIL with
    | false => simp [compress_image_bytes]
    | true =>
      cases hdec : codec.decode bytes with
      | none =>
        have h1 : compress_image_bytes true codec bytes 1600 82 = (bytes, "image/jpeg") := by
          simp [compress_image_bytes, hdec]
        rw [h1]
        simp [compress_image_bytes, hdec]
      | some im =>
        rw [compress_eq_encode codec hdec 1600 82]
        dsimp only
        rw [hRT _ 82, compress_twice_dims codec hRT _ ?_ 82]
        · rfl
        · dsimp only
          exact compress_dims_le im.width im.height

/-- C6 witness: the theorem applied at the concrete demo codec, once on an
already-small image and once re-compressing a compressed large image. -/
theorem compressor_idempotent_witness :
    (demoCodec.decode (compress_image_bytes true demoCodec [1, 10, 20] 1600 82).1).map
      (fun j => (j.width, j.height)) = some (10, 20) ∧
    (demoCodec.decode (compress_image_bytes true demoCodec
        (compress_image_bytes true demoCodec [1, 5000, 40] 1600 82).1 1600 82).1).map
      (fun j => (j.width, j.height)) =
    (demoCodec.decode (compress_image_bytes true demoCodec [1, 5000, 40] 1600 82).1).map
      (fun j => (j.width, j.height)) := by
  have hRT : roundTripCodec demoCodec := fun im q => rfl
  constructor
  · exact (compressor_idempotent true demoCodec hRT [1, 10, 20]).1
      ⟨10, 20, "RGB"⟩ rfl rfl (by decide)
  · exact (compressor_idempotent true demoCodec hRT [1, 5000, 40]).2

/- ===================== C3: oversized uploads ===================== -/

/-- C3 counterexample: an upload whose byte buffer exceeds 20 MiB but whose
content type is not an image (and whose filename does not guess to one) is
rejected by the earlier media-type check with status 400, not 413, because
the content-type check runs before the size check. -/
theorem identify_oversized_counterexample :
    identify ⟨some "k", true⟩ (providerOk "r") guess_type_demo true demoCodec
        (some ⟨some "a.txt", some "text/plain", List.replicate 20971521 0⟩) none none =
      (.error ⟨400, "Invalid image type: text/plain"⟩, []) ∧
    20 * 1024 * 1024 < (List.replicate 20971521 (0 : Nat)).length ∧
    (400 : Nat) ≠ 413 := by
  refine ⟨rfl, ?_, by decide⟩
  rw [List.length_replicate]
  decide

/-- C3 amended: every upload — arriving in the `file` field or the `image`
field — that passes the media-type check (its declared content type is
`image/*`, or the MIME type guessed from its filename is `image/*`) and
whose byte buffer exceeds 20 MiB is rejected with the 413 ImageTooLarge
error and an empty provider-call trace (the gateway is never invoked);
such an upload with an empty buffer is likewise rejected with 400 before
inference. (An oversized upload that already fails the media-type check
is instead rejected 400 by that earlier check.) -/
theorem identify_oversized_413_amended :
    (∀ (cfg : Config) (provider : Provider) (guessType : GuessType) (hasPIL : Bool)
        (codec : Codec) (file image : Option Upload) (u : Upload) (context : Option String),
      (match file with | some v => some v | none => image) = some u →
      (startswith (pyStrip (pyLower (pyOrS u.content_type ""))) "image/" = true ∨
        startswith (pyOrS (guessType (pyOrS u.filename "")) "") "image/" = true) →
      20 * 1024 * 1024 < u.bytes.length →
      identify cfg provider guessType hasPIL codec file image context =
        (.error ⟨413, "Image too large (max ~20MB)."⟩, [])) ∧
    (∀ (cfg : Config) (provider : Provider) (guessType : GuessType) (hasPIL : Bool)
        (codec : Codec) (file image : Option Upload) (u : Upload) (context : Option String),
      (match file with | some v => some v | none => image) = some u →
      (startswith (pyStrip (pyLower (pyOrS u.content_type ""))) "image/" = true ∨
        startswith (pyOrS (guessType (pyOrS u.filename "")) "") "image/" = true) →
      u.bytes = [] →
      identify cfg provider guessType hasPIL codec file image context =
        (.error ⟨400, "Uploaded image was empty."⟩, [])) := by
  constructor
  · intro cfg provider guessType hasPIL codec file image u context hsel hpass hlen
    have hne : u.bytes ≠ [] := by
      intro h
      rw [h] at hlen
      simp at hlen
    rcases hpass with h1 | h4
    · simp [identify, identify_normalize, hsel, h1, hne, hlen]
    · by_cases h1 : startswith (pyStrip (pyLower (pyOrS u.content_type ""))) "image/" = true
      · simp [identify, identify_normalize, hsel, h1, hne, hlen]
      · simp [identify, identify_normalize, hsel, h1, h4, hne, hlen]
  · intro cfg provider guessType hasPIL codec file image u context hsel hpass hempty
    rcases hpass with h1 | h4
    · simp [identify, identify_normalize, hsel, h1, hempty]
    · by_cases h1 : startswith (pyStrip (pyLower (pyOrS u.content_type ""))) "image/" = true
      · simp [identify, identify_normalize, hsel, h1, hempty]
      · simp [identify, identify_normalize, hsel, h1, h4, hempty]

/-- C3 amended witness: the theorem applied at a concrete oversized upload
with a declared image type in the `file` field, at a concrete oversized
upload in the `image` field whose non-image declared type is rescued by
the filename guess, and at a concrete empty upload in each shape. -/
theorem identify_oversized_413_amended_witness :
    identify ⟨none, true⟩ (providerOk "r") guess_type_demo true demoCodec
        (some ⟨some "big.jpg", some "image/jpeg", List.replicate 20971521 0⟩) none none =
      (.error ⟨413, "Image too large (max ~20MB)."⟩, []) ∧
    identify ⟨none, true⟩ (providerOk "r") guess_type_demo true demoCodec
        none (some ⟨some "big.jpg", some "application/octet-stream",
          List.replicate 20971521 0⟩) none =
      (.error ⟨413, "Image too large (max ~20MB)."⟩, []) ∧
    identify ⟨none, true⟩ (providerOk "r") guess_type_demo true demoCodec
        (some ⟨some "e.jpg", some "image/jpeg", []⟩) none none =
      (.error ⟨400, "Uploaded image was empty."⟩, []) ∧
    identify ⟨none, true⟩ (providerOk "r") guess_type_demo true demoCodec
        none (some ⟨some "e.png", some "text/plain", []⟩) none =
      (.error ⟨400, "Uploaded image was empty."⟩, []) := by
  refine ⟨?_, ?_, ?_, ?_⟩
  · exact identify_oversized_413_amended.1 ⟨none, true⟩ (providerOk "r") guess_type_demo
      true demoCodec (some ⟨some "big.jpg", some "image/jpeg", List.replicate 20971521 0⟩)
      none ⟨some "big.jpg", some "image/jpeg", List.replicate 20971521 0⟩ none
      rfl (Or.inl (by decide)) (by rw [List.length_replicate]; decide)
  · exact identify_oversized_413_amended.1 ⟨none, true⟩ (providerOk "r") guess_type_demo
      true demoCodec none
      (some ⟨some "big.jpg", some "application/octet-stream", List.replicate 20971521 0⟩)
      ⟨some "big.jpg", some "application/octet-stream", List.replicate 20971521 0⟩ none
      rfl (Or.inr (by decide)) (by rw [List.length_replicate]; decide)
  · exact identify_oversized_413_amended.2 ⟨none, true⟩ (providerOk "r") guess_type_demo
      true demoCodec (some ⟨some "e.jpg", some "image/jpeg", []⟩) none
      ⟨some "e.jpg", some "image/jpeg", []⟩ none
      rfl (Or.inl (by decide)) rfl
  · exact identify_oversized_413_amended.2 ⟨none, true⟩ (providerOk "r") guess_type_demo
      true demoCodec none (some ⟨some "e.png", some "text/plain", []⟩)
      ⟨some "e.png", some "text/plain", []⟩ none
      rfl (Or.inr (by decide)) rfl

/- ===================== C7: MIME invariant ===================== -/

theorem startswith_data_image (ct r1 r2 : String) (h : startswith ct "image/" = true) :
    startswith ("data:" ++ ct ++ r1 ++ r2) "data:image/" = true := by
  unfold startswith at h ⊢
  rw [List.isPrefixOf_iff_prefix] at h ⊢
  rw [toList_append, toList_append, toList_append]
  have hsplit : "data:image/".toList = "data:".toList ++ "image/".toList := by decide
  rw [hsplit, List.append_assoc, List.append_assoc]
  refine (List.prefix_append_right_inj "data:".toList).mpr ?_
  exact h.trans ((List.prefix_append ct.toList r1.toList).trans
    (by rw [← List.append_assoc]; exact List.prefix_append _ _))

/-- C7: (i) whenever `/identify` normalization accepts an upload, the
resolved MIME type begins with `image/`; (ii) a declared `image/*` content
type is trusted as-is (given a nonempty, within-bound buffer); (iii) when
neither the declared type nor the filename guess yields an `image/*` type,
normalization fails with 400; (iv) the data URL handed to inference always
begins with `data:image/`. -/
theorem normalize_mime_invariant :
    (∀ (guessType : GuessType) (file image : Option Upload) (u : Upload)
        (raw : ByteBuf) (ct : String),
      identify_normalize guessType file image = .ok (u, raw, ct) →
      startswith ct "image/" = true) ∧
    (∀ (guessType : GuessType) (u : Upload),
      startswith (pyStrip (pyLower (pyOrS u.content_type ""))) "image/" = true →
      u.bytes ≠ [] → u.bytes.length ≤ 20 * 1024 * 1024 →
      identify_normalize guessType (some u) none =
        .ok (u, u.bytes, pyStrip (pyLower (pyOrS u.content_type "")))) ∧
    (∀ (guessType : GuessType) (u : Upload),
      startswith (pyStrip (pyLower (pyOrS u.content_type ""))) "image/" = false →
      startswith (pyOrS (guessType (pyOrS u.filename "")) "") "image/" = false →
      identify_normalize guessType (some u) none =
        .error ⟨400, "Invalid image type: " ++
          pyOrSS (pyStrip (pyLower (pyOrS u.content_type ""))) "unknown"⟩) ∧
    (∀ (bytes : ByteBuf) (ct : String),
      startswith (b64_data_url bytes ct) "data:image/" = true) := by
  refine ⟨?_, ?_, ?_, ?_⟩
  · intro guessType file image u raw ct h
    unfold identify_normalize at h
    split at h
    · exact absurd h (by simp)
    · rename_i x upl heq
      by_cases h1 : startswith (pyStrip (pyLower (pyOrS upl.content_type ""))) "image/" = true
      · simp only [h1, if_true] at h
        by_cases h2 : upl.bytes = []
        · simp [h2] at h
        · by_cases h3 : 20 * 1024 * 1024 < upl.bytes.length
          · simp [h2, h3] at h
          · simp [h2, h3] at h
            rw [← h.2.2]
            exact h1
      · simp only [h1, Bool.false_eq_true, if_false] at h
        by_cases h4 : startswith (pyOrS (guessType (pyOrS upl.filename "")) "") "image/" = true
        · simp only [h4, if_true] at h
          by_cases h2 : upl.bytes = []
          · simp [h2] at h
          · by_cases h3 : 20 * 1024 * 1024 < upl.bytes.length
            · simp [h2, h3] at h
            · simp [h2, h3] at h
              rw [← h.2.2]
              exact h4
        · simp [h4] at h
  · intro guessType u hct hne hsize
    have h3 : ¬ 20 * 1024 * 1024 < u.bytes.length := Nat.not_lt.mpr hsize
    simp [identify_normalize, hct, hne, h3]
  · intro guessType u hct hguess
    simp [identify_normalize, hct, hguess]
  · intro bytes ct
    dsimp only [b64_data_url]
    split
    · exact startswith_data_image "image/jpeg" _ _ (by decide)
    · rename_i hif
      have hc : startswith (pyStrip (pyLower (pyOrSS ct "image/jpeg"))) "image/" = true := by
        simpa using hif
      exact startswith_data_image _ _ _ hc

/-- C7 witness: the invariant applied at concrete uploads and data URLs. -/
theorem normalize_mime_invariant_witness :
    startswith "image/png" "image/" = true ∧
    identify_normalize guess_type_demo
        (some ⟨some "x.png", some "image/png", [7]⟩) none =
      .ok (⟨some "x.png", some "image/png", [7]⟩, [7], "image/png") ∧
    identify_normalize guess_type_demo
        (some ⟨some "a.bin", some "application/pdf", [7]⟩) none =
      .error ⟨400, "Invalid image type: application/pdf"⟩ ∧
    startswith (b64_data_url [1, 2, 3] "text/plain") "data:image/" = true := by
  refine ⟨?_, ?_, ?_, ?_⟩
  · exact normalize_mime_invariant.1 guess_type_demo
      (some ⟨some "x.png", some "image/png", [7]⟩) none
      ⟨some "x.png", some "image/png", [7]⟩ [7] "image/png" rfl
  · have h := normalize_mime_invariant.2.1 guess_type_demo
      ⟨some "x.png", some "image/png", [7]⟩ (by decide) (by decide) (by decide)
    simpa using h
  · have h := normalize_mime_invariant.2.2.1 guess_type_demo
      ⟨some "a.bin", some "application/pdf", [7]⟩ (by decide) (by decide)
    simpa using h
  · exact normalize_mime_invariant.2.2.2 [1, 2, 3] "text/plain"

/- ===================== C1: media-input shapes ===================== -/

theorem identify_normalize_ok_shape (guessType : GuessType) (file image : Option Upload)
    (u : Upload) (raw : ByteBuf) (ct : String)
    (h : identify_normalize guessType file image = .ok (u, raw, ct)) :
    raw = u.bytes ∧ startswith ct "image/" = true := by
  unfold identify_normalize at h
  split at h
  · exact absurd h (by simp)
  · rename_i x upl heq
    by_cases h1 : startswith (pyStrip (pyLower (pyOrS upl.content_type ""))) "image/" = true
    · simp only [h1, if_true] at h
      by_cases h2 : upl.bytes = []
      · simp [h2] at h
      · by_cases h3 : 20 * 1024 * 1024 < upl.bytes.length
        · simp [h2, h3] at h
        · simp [h2, h3] at h
          refine ⟨?_, ?_⟩
          · rw [← h.1, ← h.2.1]
          · rw [← h.2.2]
            exact h1
    · simp only [h1, Bool.false_eq_true, if_false] at h
      by_cases h4 : startswith (pyOrS (guessType (pyOrS upl.filename "")) "") "image/" = true
      · simp only [h4, if_true] at h
        by_cases h2 : upl.bytes = []
        · simp [h2] at h
        · by_cases h3 : 20 * 1024 * 1024 < upl.bytes.length
          · simp [h2, h3] at h
          · simp [h2, h3] at h
            refine ⟨?_, ?_⟩
            · rw [← h.1, ← h.2.1]
            · rw [← h.2.2]
              exact h4
      · simp [h4] at h

/-- C1 counterexample: the webhook channel does not normalize media at all —
a webhook POST whose MediaUrl0 field smuggles a data URL of the image bytes
[1, 2, 3] results in exactly one provider call, and it is a text-only call
with the data URL interpolated verbatim as prompt text: no local data-URL
parse, no authenticated fetch, and no decoded image content exist on this
channel, so the remote-URL shape is not resolved to any byte content. -/
theorem webhook_no_media_normalization_counterexample :
    (whatsapp_webhook ⟨some "k", true⟩ (providerOk "reply")
        ⟨"whatsapp:+1555", "hi", "1", some "data:image/jpeg;base64,AQID",
          some "image/jpeg"⟩).2 =
      [AICall.textOnly
        "Farmer says: hi\nThey also sent an image: data:image/jpeg;base64,AQID"] := by
  rfl

/-- C1 amended: the multipart shape on `/identify` is normalized to the
exact uploaded bytes (byte-identical) with an `image/*` MIME type; the
webhook channel performs no media normalization: for every form its
provider-call trace is empty or a single text-only call whose prompt is
the webhook prompt string (with any media URL embedded as text), never a
vision call carrying decoded media. -/
theorem media_normalization_amended :
    (∀ (guessType : GuessType) (file image : Option Upload) (u : Upload)
        (raw : ByteBuf) (ct : String),
      identify_normalize guessType file image = .ok (u, raw, ct) →
      raw = u.bytes ∧ startswith ct "image/" = true) ∧
    (∀ (cfg : Config) (provider : Provider) (f : WebhookForm),
      (whatsapp_webhook cfg provider f).2 = [] ∨
      (whatsapp_webhook cfg provider f).2 = [AICall.textOnly (webhook_prompt f)]) := by
  constructor
  · exact identify_normalize_ok_shape
  · intro cfg provider f
    cases hok : ok_openai cfg
    · left
      simp [whatsapp_webhook, ai_text_only, hok]
    · cases hp : provider (AICall.textOnly (webhook_prompt f)) <;>
        · right
          simp [whatsapp_webhook, ai_text_only, hok, hp]

/-- C1 amended witness: the amended theorem applied at a concrete upload
and a concrete webhook form. -/
theorem media_normalization_amended_witness :
    (([7, 8] : ByteBuf) = ([7, 8] : ByteBuf) ∧ startswith "image/png" "image/" = true) ∧
    ((whatsapp_webhook ⟨none, true⟩ (providerOk "r") ⟨"f", "b", "0", none, none⟩).2 = [] ∨
      (whatsapp_webhook ⟨none, true⟩ (providerOk "r") ⟨"f", "b", "0", none, none⟩).2 =
        [AICall.textOnly (webhook_prompt ⟨"f", "b", "0", none, none⟩)]) := by
  constructor
  · exact media_normalization_amended.1 guess_type_demo
      (some ⟨some "x.png", some "image/png", [7, 8]⟩) none
      ⟨some "x.png", some "image/png", [7, 8]⟩ [7, 8] "image/png" rfl
  · exact media_normalization_amended.2 ⟨none, true⟩ (providerOk "r") ⟨"f", "b", "0", none, none⟩

/- ===================== C9: recent-history listing ===================== -/

/-- C9: for every store state and limit, the listing returns at most
`limit` records, ordered descending by the store-assigned primary key,
each rendered from a persisted record of the store, and the store itself
is unchanged (the query only reads). -/
theorem get_all_messages_spec (store : List MessageRec) (limit : Nat) :
    (get_all_messages store limit).1.length ≤ limit ∧
    List.Pairwise (fun a b => b.1 ≤ a.1) (get_all_messages store limit).1 ∧
    (∀ x ∈ (get_all_messages store limit).1, ∃ m ∈ store, x = msgDict m) ∧
    (get_all_messages store limit).2 = store := by
  refine ⟨?_, ?_, ?_, rfl⟩
  · simp only [get_all_messages, List.length_map, List.length_take]
    exact min_le_left _ _
  · have hs : List.Sorted msgDesc (List.insertionSort msgDesc store) :=
      List.sorted_insertionSort msgDesc store
    have ht : List.Pairwise msgDesc ((List.insertionSort msgDesc store).take limit) :=
      List.Pairwise.sublist (List.take_sublist limit _) hs
    simp only [get_all_messages]
    rw [List.pairwise_map]
    exact ht
  · intro x hx
    simp only [get_all_messages, List.mem_map] at hx
    obtain ⟨m, hm, rfl⟩ := hx
    have hm2 : m ∈ List.insertionSort msgDesc store :=
      (List.take_sublist limit _).subset hm
    exact ⟨m, (List.perm_insertionSort msgDesc store).mem_iff.mp hm2, rfl⟩

/-- C2 witness: the theorem applied at a concrete form, provider and
escaped character. -/
theorem webhook_always_200_one_escaped_message_witness :
    (whatsapp_webhook ⟨some "k", true⟩ (providerOk "a&b")
        ⟨"", "", "", none, none⟩).1.status_code = 200 ∧
    ('&' ≠ '<' ∧ '&' ≠ '>') := by
  constructor
  · exact (webhook_always_200_one_escaped_message ⟨some "k", true⟩ (providerOk "a&b")
      ⟨"", "", "", none, none⟩).1
  · exact (webhook_always_200_one_escaped_message ⟨some "k", true⟩ (providerOk "a&b")
      ⟨"", "", "", none, none⟩).2.2.2.2.2 '&' (by decide)

/-- C9 witness: the theorem applied at a concrete two-row store. -/
theorem get_all_messages_spec_witness :
    (get_all_messages [⟨1, 1, "user", "a"⟩, ⟨2, 1, "agent", "b"⟩] 1).1.length ≤ 1 ∧
    ∃ m ∈ [(⟨1, 1, "user", "a"⟩ : MessageRec), ⟨2, 1, "agent", "b"⟩],
      ((2 : Nat), (1 : Nat), "agent", "b") = msgDict m := by
  constructor
  · exact (get_all_messages_spec [⟨1, 1, "user", "a"⟩, ⟨2, 1, "agent", "b"⟩] 1).1
  · exact (get_all_messages_spec [⟨1, 1, "user", "a"⟩, ⟨2, 1, "agent", "b"⟩] 1).2.2.1
      (2, 1, "agent", "b") (by decide)
